import Mathlib

/-!
Shallow embedding of `src/src/task/CreatePeerConnectionTask.ts`
(amazon-chime-es-sdk): the track-to-tile binding protocol of
`CreatePeerConnectionTask`.

JavaScript values that the relevant code branches on (numbers, strings,
`null`, `undefined`) are embedded as `JsVal`; strict equality (`===`/`!==`),
the `typeof` operator, and truthiness tests (`if (x)`) are embedded
explicitly, because the source relies on their JavaScript semantics
(for instance `typeof x !== null` and `if (tileState.streamId)`).

The mutable fields of the `CreatePeerConnectionTask` instance that the
binding protocol reads and writes are collected in `CoordState`; each
source method becomes a state transformer, returning `Except JsError _`
where the source can raise a `TypeError` (property access on `null`,
calling `undefined`, `for..of` over `undefined`). Timer scheduling
(`TimeoutScheduler`) is modelled by pending flags plus ghost counters:
starting a timer sets the flag and bumps the counter, firing or stopping
it clears the flag, and a timer callback can run only while the flag is
set (`step`).
-/

/-- A JavaScript value in the fragment the task branches on: a number,
a string, `null`, or `undefined`. -/
inductive JsVal where
  | num (n : Int)
  | str (s : String)
  | null
  | undef
deriving DecidableEq, Repr

/-- JavaScript strict equality `===` on the embedded fragment: values of
different types (or different shapes) are never strictly equal, and
`null === undefined` is false. -/
def jsStrictEq : JsVal → JsVal → Bool
  | JsVal.num a, JsVal.num b => a == b
  | JsVal.str a, JsVal.str b => a == b
  | JsVal.null, JsVal.null => true
  | JsVal.undef, JsVal.undef => true
  | _, _ => false

/-- The JavaScript `typeof` operator on the embedded fragment; note that
`typeof null` is the string `"object"`, and the result is always a string. -/
def jsTypeof : JsVal → JsVal
  | JsVal.num _ => JsVal.str "number"
  | JsVal.str _ => JsVal.str "string"
  | JsVal.null => JsVal.str "object"
  | JsVal.undef => JsVal.str "undefined"

/-- JavaScript truthiness, as used by `if (externalUserId)` and
`if (tileState.streamId)`: `0`, the empty string, `null` and `undefined`
are falsy. -/
def jsTruthy : JsVal → Bool
  | JsVal.num n => n != 0
  | JsVal.str s => s != ""
  | JsVal.null => false
  | JsVal.undef => false

/-- The `trackCapability` field
(`MediaTrackCapabilities | MediaTrackSettings`, also assigned `null` in
`bindTile`): either the JavaScript `null`, or an object carrying `width`
and `height` properties, each of which may itself be a number, `null`, or
`undefined` (absent property). -/
inductive Snapshot where
  | jsNull
  | snap (width height : JsVal)
deriving DecidableEq, Repr

/-- The runtime error the embedded code can raise: a JavaScript
`TypeError` (property access on `null`, calling `undefined`, iterating
`undefined`). -/
inductive JsError where
  | typeError
deriving DecidableEq, Repr

/-- Property read `x.width`: raises `TypeError` when the receiver is
`null`. -/
def capWidth : Snapshot → Except JsError JsVal
  | Snapshot.snap w _ => Except.ok w
  | Snapshot.jsNull => Except.error JsError.typeError

/-- Property read `x.height`: raises `TypeError` when the receiver is
`null`. -/
def capHeight : Snapshot → Except JsError JsVal
  | Snapshot.snap _ h => Except.ok h
  | Snapshot.jsNull => Except.error JsError.typeError

/-- One recorded `tile.bindVideoStream(attendeeId, false, stream, width,
height, streamId, externalUserId)` call (the opaque `stream` object is not
recorded). -/
structure BindCall where
  attendeeId : String
  width : JsVal
  height : JsVal
  streamId : JsVal
  externalUserId : JsVal
deriving DecidableEq, Repr

/-- The captured arguments of the presence handler closure created by
`bindExternalIdToRemoteTile` (the `attendeeId`, `width`, `height`,
`streamId` it closes over). -/
structure PresenceCtx where
  attendeeId : String
  width : JsVal
  height : JsVal
  streamId : JsVal
deriving DecidableEq, Repr

/-- One event delivered by the presence feed to a subscribed handler:
`(attendeeId, present, externalUserId)`. -/
structure PresenceEvent where
  attendeeId : String
  present : Bool
  externalUserId : JsVal
deriving DecidableEq, Repr

/-- The mutable fields of one `CreatePeerConnectionTask` instance that the
track-to-tile binding protocol reads and writes, for a single remote video
track, plus ghost counters (`backoffScheduledCount`, `unsubscribeCalls`,
`teardownRuns`, `warnings`) that count observable calls. -/
structure CoordState where
  /-- Field `this.trackCapability`. -/
  trackCapability : Snapshot
  /-- Field `this.isContentWidthHeightSet`. -/
  isContentWidthHeightSet : Bool
  /-- a `this.backoffTimer` is scheduled and neither fired nor stopped. -/
  backoffPending : Bool
  /-- ghost: how many backoff timers were ever started. -/
  backoffScheduledCount : Nat
  /-- Holds when `this.removeTrackAddedEventListener` is non-null. -/
  trackAddedRegistered : Bool
  /-- Holds when `this.removeTrackRemovedEventListeners[track.id]` is present. -/
  trackRemovedListenerRegistered : Bool
  /-- Entry `this.removeVideoTrackEventListeners[track.id]`: `none` when the key
  is absent, `some n` when it holds a list of `n` release callbacks. -/
  videoTrackListeners : Option Nat
  /-- the tile created by `addVideoTile` is still in the tile registry. -/
  tilePresent : Bool
  /-- the resolved `streamId` local of `addRemoteVideoTrack`. -/
  streamId : JsVal
  /-- ghost: every `tile.bindVideoStream` call, most recent first. -/
  binds : List BindCall
  /-- ghost: every streamId passed to `this.context.videosPaused.remove`. -/
  pausedRemoved : List JsVal
  /-- ghost: number of `logger.warn` calls. -/
  warnings : Nat
  /-- ghost: number of `removeRemoteVideoTrack` invocations. -/
  teardownRuns : Nat
  /-- the captured arguments of the presence handler closure, once
  `bindExternalIdToRemoteTile` has run. -/
  presenceCtx : Option PresenceCtx
  /-- the handler is subscribed to `realtimeController` presence. -/
  presenceSubscribed : Bool
  /-- the handler is a member of `this.presenceHandlerSet`. -/
  handlerInSet : Bool
  /-- the `timeoutScheduler` of `bindExternalIdToRemoteTile` is scheduled
  and neither fired nor stopped. -/
  presenceTimeoutPending : Bool
  /-- ghost: number of `realtimeUnsubscribeToAttendeeIdPresence(handler)`
  calls for this handler. -/
  unsubscribeCalls : Nat
deriving DecidableEq, Repr

/-- Method `isCapabilitySet()` (source lines 319-336). The guard
`this.trackCapability !== null` selects the object branch; inside it the
source tests `this.trackCapability.width !== null &&
typeof this.trackCapability.height !== null` — the second conjunct
compares the string produced by `typeof` against `null` with `!==`.
When the guard fails (snapshot is `null`), the source reaches
`console.log(... + this.trackCapability.width)`, a property access on
`null`, which raises a `TypeError` before the final `return false`. -/
def isCapabilitySet (s : CoordState) : Except JsError (Bool × CoordState) :=
  match s.trackCapability with
  | Snapshot.snap w h =>
    if !(jsStrictEq w JsVal.null) && !(jsStrictEq (jsTypeof h) JsVal.null) then
      Except.ok (true, s)
    else
      Except.ok (false, { s with isContentWidthHeightSet := false })
  | Snapshot.jsNull =>
    Except.error JsError.typeError

/-- The environment a single remote video track presents to the task: the
capability snapshot `track.getSettings()` returns (the `getCapabilities()`
fallback has the same shape), the value
`realtimeExternalUserIdFromAttendeeId(attendeeId)` returns (a string or
`null`), the value `videoStreamIndex.streamIdForTrack(trackId)` returns
(a number or `undefined`), whether `stream.getVideoTracks()` is non-empty,
and the `attendeeId` resolved for the track. -/
structure Env where
  trackSettings : Snapshot
  externalUserId : JsVal
  streamIdForTrack : JsVal
  hasVideoSubTracks : Bool
  attendeeId : String
deriving DecidableEq, Repr

/-- Field `this.trackEvents` (source lines 24-30). -/
def trackEvents : List String :=
  ["ended", "mute", "unmute", "isolationchange", "overconstrained"]

/-- A `tile.bindVideoStream(attendeeId, false, stream, width, height,
streamId, externalUserId)` call, recorded on the ghost `binds` list. -/
def tileBindVideoStream (aid : String) (w h sid extId : JsVal)
    (s : CoordState) : CoordState :=
  { s with binds := BindCall.mk aid w h sid extId :: s.binds }

/-- Method `bindExternalIdToRemoteTile(tile, attendeeId, stream, width, height,
streamId)` (source lines 159-182): creates the timeout scheduler, builds
the handler closure (captured arguments recorded in `presenceCtx`),
subscribes it to presence, adds it to `presenceHandlerSet`, and starts the
timeout. -/
def bindExternalIdToRemoteTile (aid : String) (w h sid : JsVal)
    (s : CoordState) : CoordState :=
  { s with presenceCtx := some (PresenceCtx.mk aid w h sid),
           presenceSubscribed := true,
           handlerInSet := true,
           presenceTimeoutPending := true }

/-- The presence handler closure built by `bindExternalIdToRemoteTile`
(source lines 168-175): on
`attendeeId === presentAttendeeId && present && externalUserId !== null`
it binds the tile with the event's `externalUserId`, unsubscribes itself,
deletes itself from `presenceHandlerSet`, and stops the timeout, all in
the same invocation; otherwise it does nothing. -/
def presenceHandler (ctx : PresenceCtx) (ev : PresenceEvent)
    (s : CoordState) : CoordState :=
  if (ctx.attendeeId == ev.attendeeId) && ev.present
      && !(jsStrictEq ev.externalUserId JsVal.null) then
    let s1 := tileBindVideoStream ctx.attendeeId ctx.width ctx.height
      ctx.streamId ev.externalUserId s
    { s1 with unsubscribeCalls := s1.unsubscribeCalls + 1,
              presenceSubscribed := false,
              handlerInSet := false,
              presenceTimeoutPending := false }
  else s

/-- The timeout callback passed to `timeoutScheduler.start` in
`bindExternalIdToRemoteTile` (source lines 178-181): unsubscribes the
handler from presence and deletes it from `presenceHandlerSet`,
unconditionally. -/
def presenceTimeoutCallback (s : CoordState) : CoordState :=
  { s with unsubscribeCalls := s.unsubscribeCalls + 1,
           presenceSubscribed := false,
           handlerInSet := false }

/-- Method `removeObserver()` (source lines 49-58): runs
`removeTrackAddedEventListener` if non-null, runs every entry of
`removeTrackRemovedEventListeners` (each stored closure removes its event
listener and deletes its own entry), and unsubscribes and deletes every
handler in `presenceHandlerSet`. It does not stop `backoffTimer` and does
not stop the presence timeout scheduler. -/
def removeObserver (s : CoordState) : CoordState :=
  let s1 := if s.trackAddedRegistered
    then { s with trackAddedRegistered := false } else s
  let s2 := if s1.trackRemovedListenerRegistered
    then { s1 with trackRemovedListenerRegistered := false } else s1
  if s2.handlerInSet then
    { s2 with unsubscribeCalls := s2.unsubscribeCalls + 1,
              presenceSubscribed := false,
              handlerInSet := false }
  else s2

/-- Method `retryWithBackoff(retryFunc)` (source lines 338-352): computes
`willRetry = !this.isContentWidthHeightSet`; when `willRetry`, creates a
new `TimeoutScheduler(this.backoffPolicy.nextBackoffAmountMs())` as
`this.backoffTimer` and starts it with `retryFunc` as callback (modelled
as `backoffPending := true` plus the ghost counter). The callback runs
only when the timer later fires (`fireBackoffTimer`). The boolean
`willRetry` it returns is ignored by its only caller, `bindTile`. -/
def retryWithBackoff (s : CoordState) : CoordState :=
  if !s.isContentWidthHeightSet then
    { s with backoffPending := true,
             backoffScheduledCount := s.backoffScheduledCount + 1 }
  else s

/-- The body of the callback `bindTile` passes to `retryWithBackoff`
(source lines 279-315): reads `track.getSettings()` (or
`getCapabilities()`; same shape) into `this.trackCapability`, clears
`isContentWidthHeightSet`, and calls `isCapabilitySet()`. When the
capability is set, it reads `width` and `height` from the snapshot, sets
`isContentWidthHeightSet := true`, asks the realtime controller for the
external user id, and either binds the tile directly (`if
(externalUserId)`) or delegates to `bindExternalIdToRemoteTile`. It never
calls `retryWithBackoff` again (the surrounding retry loop in the source
is commented out), and the `this.backoffTimer.stop()` line is commented
out. -/
def retryFuncBody (env : Env) (s : CoordState) : Except JsError CoordState := do
  let s1 := { s with trackCapability := env.trackSettings,
                     isContentWidthHeightSet := false }
  let rs ← isCapabilitySet s1
  if rs.1 then
    let w ← capWidth rs.2.trackCapability
    let h ← capHeight rs.2.trackCapability
    let s3 := { rs.2 with isContentWidthHeightSet := true }
    if jsTruthy env.externalUserId then
      pure (tileBindVideoStream env.attendeeId w h s3.streamId
        env.externalUserId s3)
    else
      pure (bindExternalIdToRemoteTile env.attendeeId w h s3.streamId s3)
  else
    pure rs.2

/-- Firing the pending backoff timer: the `TimeoutScheduler` consumes the
schedule and runs `retryFunc`. A timer that is not pending cannot fire. -/
def fireBackoffTimer (env : Env) (s : CoordState) :
    Except JsError CoordState :=
  if s.backoffPending then
    retryFuncBody env { s with backoffPending := false }
  else
    Except.ok s

/-- Method `bindTile(track, tile, attendeeId, stream, streamId, trackId)`
(source lines 269-317): sets `this.trackCapability = null`, then calls
`retryWithBackoff` with the capability-reading callback. Nothing is read
from the track until the scheduled timer fires. -/
def bindTile (s : CoordState) : CoordState :=
  retryWithBackoff { s with trackCapability := Snapshot.jsNull }

/-- Method `addRemoteVideoTrack(track, stream)` (source lines 184-267): removes
duplicate tiles for the attendee (external registry, not modelled),
creates the tile, resolves `streamId` (warning and `null` when the index
returns `undefined`), registers one auxiliary diagnostic listener per
entry of `trackEvents` on the first video sub-track — only when
`stream.getVideoTracks()` is non-empty, which also creates the
`removeVideoTrackEventListeners[track.id]` list — then creates the
backoff policy, sets `isContentWidthHeightSet = false`, calls `bindTile`,
and finally registers the track end/removed trigger in
`removeTrackRemovedEventListeners[track.id]`. -/
def addRemoteVideoTrack (env : Env) (s : CoordState) : CoordState :=
  let s0 := { s with tilePresent := true }
  let s1 :=
    if jsStrictEq (jsTypeof env.streamIdForTrack) (JsVal.str "undefined") then
      { s0 with streamId := JsVal.null, warnings := s0.warnings + 1 }
    else
      { s0 with streamId := env.streamIdForTrack }
  let s2 :=
    if env.hasVideoSubTracks then
      { s1 with videoTrackListeners := some trackEvents.length }
    else s1
  let s3 := { s2 with isContentWidthHeightSet := false }
  let s4 := bindTile s3
  { s4 with trackRemovedListenerRegistered := true }

/-- Method `removeRemoteVideoTrack(track, tileState)` (source lines 354-372):
first calls `this.removeTrackRemovedEventListeners[track.id]()` — a
`TypeError` (calling `undefined`) when the entry is absent; the stored
closure removes the end/removed listener and deletes its own entry. Then
iterates `this.removeVideoTrackEventListeners[track.id]` with `for..of` —
a `TypeError` when that key was never created — running each release
callback, and deletes the key. Then `if (tileState.streamId)` (JavaScript
truthiness) either notifies `videosPaused.remove(tileState.streamId)` or
logs a warning, and finally removes the tile from the tile registry. -/
def removeRemoteVideoTrack (tileStreamId : JsVal) (s : CoordState) :
    Except JsError CoordState := do
  let s0 := { s with teardownRuns := s.teardownRuns + 1 }
  let s1 ←
    if s0.trackRemovedListenerRegistered then
      pure { s0 with trackRemovedListenerRegistered := false }
    else
      Except.error JsError.typeError
  let s2 ←
    match s1.videoTrackListeners with
    | some _ => pure { s1 with videoTrackListeners := none }
    | none => Except.error JsError.typeError
  let s3 :=
    if jsTruthy tileStreamId then
      { s2 with pausedRemoved := tileStreamId :: s2.pausedRemoved }
    else
      { s2 with warnings := s2.warnings + 1 }
  pure { s3 with tilePresent := false }

/-- The task state right after `run()` has registered the track-added
listener and before any remote video track has arrived. -/
def initState : CoordState :=
  { trackCapability := Snapshot.jsNull,
    isContentWidthHeightSet := false,
    backoffPending := false,
    backoffScheduledCount := 0,
    trackAddedRegistered := true,
    trackRemovedListenerRegistered := false,
    videoTrackListeners := none,
    tilePresent := false,
    streamId := JsVal.null,
    binds := [],
    pausedRemoved := [],
    warnings := 0,
    teardownRuns := 0,
    presenceCtx := none,
    presenceSubscribed := false,
    handlerInSet := false,
    presenceTimeoutPending := false,
    unsubscribeCalls := 0 }

/-- The externally triggered events of one track's lifecycle: the track
arriving, the backoff timer firing, a presence event, the presence
timeout firing, the track end/removed signal (carrying
`tile.state().streamId`), and session teardown via `removeObserver`. -/
inductive Ev where
  | addTrack
  | fireBackoff
  | presence (ev : PresenceEvent)
  | fireTimeout
  | trackRemoved (sid : JsVal)
  | teardown
deriving DecidableEq, Repr

/-- One environment step. Timers fire only while pending; presence events
reach the handler only while it is subscribed; the end/removed signal
invokes `removeRemoteVideoTrack` only while its listener is registered. -/
def step (env : Env) (e : Ev) (s : CoordState) : Except JsError CoordState :=
  match e with
  | Ev.addTrack => Except.ok (addRemoteVideoTrack env s)
  | Ev.fireBackoff => fireBackoffTimer env s
  | Ev.presence ev =>
    Except.ok (if s.presenceSubscribed then
      match s.presenceCtx with
      | some ctx => presenceHandler ctx ev s
      | none => s
    else s)
  | Ev.fireTimeout =>
    Except.ok (if s.presenceTimeoutPending then
      presenceTimeoutCallback { s with presenceTimeoutPending := false }
    else s)
  | Ev.trackRemoved sid =>
    if s.trackRemovedListenerRegistered then
      removeRemoteVideoTrack sid s
    else
      Except.ok s
  | Ev.teardown => Except.ok (removeObserver s)

/-- Running a sequence of lifecycle events from a state. -/
def exec (env : Env) : List Ev → CoordState → Except JsError CoordState
  | [], s => Except.ok s
  | e :: es, s => do
    let s1 ← step env e s
    exec env es s1

/-- Function `jsStrictEq` decides equality on the embedded value fragment. -/
theorem jsStrictEq_iff (a b : JsVal) : jsStrictEq a b = true ↔ a = b := by
  cases a <;> cases b <;> simp [jsStrictEq]

/-- Claim C1: the capability-readiness check is claimed to return true iff
both width and height are present and non-null, and in particular false
whenever height is null or undefined or width is undefined. The code does
not: its height conjunct is `typeof height !== null`, which compares the
string `typeof` produces against `null` and therefore always holds, and
its width conjunct `width !== null` also holds for an undefined width. At
the snapshot with width 640 and height null, and at the snapshot with
width undefined and height 480, `isCapabilitySet` returns true. -/
theorem isCapabilitySet_true_with_null_height_or_undefined_width :
    (isCapabilitySet { initState with
        trackCapability := Snapshot.snap (JsVal.num 640) JsVal.null }).map
      (fun r => r.1) = Except.ok true ∧
    (isCapabilitySet { initState with
        trackCapability := Snapshot.snap JsVal.undef (JsVal.num 480) }).map
      (fun r => r.1) = Except.ok true := by
  constructor <;> rfl

/-- Claim C10 (counterexample): `isCapabilitySet` is claimed to be total,
returning false on a null snapshot; but when `trackCapability` is `null`
the fall-through branch dereferences `null` and raises a `TypeError`
instead of returning false. -/
theorem isCapabilitySet_null_snapshot_raises :
    isCapabilitySet { initState with trackCapability := Snapshot.jsNull }
      = Except.error JsError.typeError := rfl

/-- Claim C10 (amended): `isCapabilitySet` returns a boolean without
raising for every non-null (object) snapshot, whatever its width and
height properties hold; for the null snapshot it raises a `TypeError`
(the fall-through `console.log` accesses a property of `null`) rather
than returning false. -/
theorem isCapabilitySet_total_on_object_snapshots (w h : JsVal)
    (s : CoordState) :
    (∃ b s2, isCapabilitySet { s with trackCapability := Snapshot.snap w h }
        = Except.ok (b, s2)) ∧
    isCapabilitySet { s with trackCapability := Snapshot.jsNull }
      = Except.error JsError.typeError := by
  constructor
  · unfold isCapabilitySet
    dsimp only
    split
    · exact ⟨true, _, rfl⟩
    · exact ⟨false, _, rfl⟩
  · rfl

/-- Claim C2 (counterexample): for a track whose capability snapshot is
already complete (width 1280, height 720) when the track is added, the
claim says binding happens with zero scheduled backoff timers; but
`addRemoteVideoTrack` (via `bindTile` and `retryWithBackoff`) starts one
backoff timer and performs no bind before that timer fires. -/
theorem addRemoteVideoTrack_schedules_timer_despite_complete_snapshot :
    (addRemoteVideoTrack
      (Env.mk (Snapshot.snap (JsVal.num 1280) (JsVal.num 720))
        (JsVal.str "u-42") (JsVal.num 3) true "a1")
      initState).backoffScheduledCount = 1 ∧
    (addRemoteVideoTrack
      (Env.mk (Snapshot.snap (JsVal.num 1280) (JsVal.num 720))
        (JsVal.str "u-42") (JsVal.num 3) true "a1")
      initState).binds = [] := by
  constructor <;> rfl

/-- Reduction of the `Except` monad bind on a success value. -/
theorem except_ok_bind {α β : Type} (a : α) (f : α → Except JsError β) :
    (Except.ok a >>= f) = f a := rfl

/-- Reduction of `Except.map` on a success value. -/
theorem except_map_ok {α β : Type} (f : α → β) (a : α) :
    (Except.ok (ε := JsError) a).map f = Except.ok (f a) := rfl

/-- Reduction of the `Except` monad bind on an error value. -/
theorem except_error_bind {α β : Type} (e : JsError)
    (f : α → Except JsError β) :
    ((Except.error e : Except JsError α) >>= f) = Except.error e := rfl

/-- Reduction of `Except.map` over `pure`. -/
theorem except_map_pure {α β : Type} (f : α → β) (a : α) :
    (pure a : Except JsError α).map f = Except.ok (f a) := rfl

/-- Reduction facts for `jsStrictEq` and `jsTypeof` on constructors, used
to evaluate the capability check without unfolding the abstract
streamId. -/
theorem jsStrictEq_num_null (n : Int) :
    jsStrictEq (JsVal.num n) JsVal.null = false := rfl

/-- A string value is never strictly equal to `null`. -/
theorem jsStrictEq_str_null (a : String) :
    jsStrictEq (JsVal.str a) JsVal.null = false := rfl

/-- Typeof of a number is the string "number". -/
theorem jsTypeof_num (n : Int) :
    jsTypeof (JsVal.num n) = JsVal.str "number" := rfl

/-- Claim C2 (amended): for every remote video track whose capability
snapshot is complete (numeric width and height),
`addRemoteVideoTrack`/`bindTile` always schedules exactly one backoff
timer — the snapshot is only read when that timer fires — and performs no
bind before it fires. When the single timer fires, capability resolution
completes (`isContentWidthHeightSet` becomes true) and no further backoff
timer is ever scheduled (total scheduled stays 1): if the attendee's
external user id is already known (truthy), the tile is bound once,
directly, with the snapshot's dimensions; otherwise nothing is bound yet
and the callback delegates to `bindExternalIdToRemoteTile`, subscribing a
presence handler that carries the same dimensions, with its timeout
started. -/
theorem bindTile_schedules_single_timer_and_resolves_on_fire
    (env : Env) (w h : Int)
    (hs : env.trackSettings = Snapshot.snap (JsVal.num w) (JsVal.num h)) :
    (addRemoteVideoTrack env initState).backoffScheduledCount = 1 ∧
    (addRemoteVideoTrack env initState).binds = [] ∧
    (addRemoteVideoTrack env initState).backoffPending = true ∧
    (fireBackoffTimer env (addRemoteVideoTrack env initState)).map
      (fun s => (s.isContentWidthHeightSet, s.backoffScheduledCount,
        s.backoffPending, s.binds, s.presenceSubscribed, s.handlerInSet,
        s.presenceTimeoutPending, s.presenceCtx)) =
      (if jsTruthy env.externalUserId then
        Except.ok (true, 1, false,
          [BindCall.mk env.attendeeId (JsVal.num w) (JsVal.num h)
            (addRemoteVideoTrack env initState).streamId
            env.externalUserId],
          false, false, false, none)
      else
        Except.ok (true, 1, false, [], true, true, true,
          some (PresenceCtx.mk env.attendeeId (JsVal.num w) (JsVal.num h)
            (addRemoteVideoTrack env initState).streamId))) := by
  obtain ⟨ts, eu, sif, hv, aid⟩ := env
  dsimp only at hs ⊢
  subst hs
  cases ht : jsTruthy eu <;> cases hv <;>
    cases hu : jsStrictEq (jsTypeof sif) (JsVal.str "undefined") <;>
      simp [addRemoteVideoTrack, bindTile, retryWithBackoff, fireBackoffTimer,
        retryFuncBody, isCapabilitySet, capWidth, capHeight,
        jsStrictEq_num_null, jsStrictEq_str_null, jsTypeof_num,
        tileBindVideoStream, bindExternalIdToRemoteTile, initState, ht, hu,
        except_ok_bind, except_map_ok]

/-- Witness for the amended C2 theorem at a concrete track with a
complete snapshot (1280 by 720) whose identity directory still returns
null: the single timer fires, binds nothing, and delegates to the
presence binder. -/
theorem bindTile_schedules_single_timer_and_resolves_on_fire_witness :
    (Env.mk (Snapshot.snap (JsVal.num 1280) (JsVal.num 720)) JsVal.null
        (JsVal.num 3) true "a1").trackSettings
      = Snapshot.snap (JsVal.num 1280) (JsVal.num 720) ∧
    ((addRemoteVideoTrack
        (Env.mk (Snapshot.snap (JsVal.num 1280) (JsVal.num 720)) JsVal.null
          (JsVal.num 3) true "a1")
        initState).backoffScheduledCount = 1 ∧
      (addRemoteVideoTrack
        (Env.mk (Snapshot.snap (JsVal.num 1280) (JsVal.num 720)) JsVal.null
          (JsVal.num 3) true "a1")
        initState).binds = [] ∧
      (addRemoteVideoTrack
        (Env.mk (Snapshot.snap (JsVal.num 1280) (JsVal.num 720)) JsVal.null
          (JsVal.num 3) true "a1")
        initState).backoffPending = true ∧
      (fireBackoffTimer
        (Env.mk (Snapshot.snap (JsVal.num 1280) (JsVal.num 720)) JsVal.null
          (JsVal.num 3) true "a1")
        (addRemoteVideoTrack
          (Env.mk (Snapshot.snap (JsVal.num 1280) (JsVal.num 720))
            JsVal.null (JsVal.num 3) true "a1")
          initState)).map
        (fun s => (s.isContentWidthHeightSet, s.backoffScheduledCount,
          s.backoffPending, s.binds, s.presenceSubscribed, s.handlerInSet,
          s.presenceTimeoutPending, s.presenceCtx)) =
        Except.ok (true, 1, false, [], true, true, true,
          some (PresenceCtx.mk "a1" (JsVal.num 1280) (JsVal.num 720)
            (JsVal.num 3)))) :=
  ⟨rfl,
    bindTile_schedules_single_timer_and_resolves_on_fire
      (Env.mk (Snapshot.snap (JsVal.num 1280) (JsVal.num 720)) JsVal.null
        (JsVal.num 3) true "a1")
      1280 720 rfl⟩

/-- Claim C3: the claim says each unsuccessful resolution attempt
schedules a further full-jitter re-attempt until the dimensions become
available. In the code the retry loop is commented out and the scheduled
callback never calls `retryWithBackoff` again: for a track whose snapshot
stays incomplete (width and height both null), after the single scheduled
attempt fires unsuccessfully, the total number of backoff timers ever
started is still 1, no timer is pending any more, and no bind happened —
resolution is never re-attempted. -/
theorem failed_attempt_schedules_no_retry :
    (exec
      (Env.mk (Snapshot.snap JsVal.null JsVal.null) (JsVal.str "u-42")
        (JsVal.num 3) true "a1")
      [Ev.addTrack, Ev.fireBackoff] initState).map
      (fun s => (s.backoffScheduledCount, s.backoffPending, s.binds)) =
    Except.ok (1, false, []) := rfl

/-- Claim C4: the claim says tearing down a track
(`removeRemoteVideoTrack`) or the session (`removeObserver`) cancels any
outstanding backoff timer. Neither method touches `backoffTimer` (the
`stop()` call in `bindTile` is commented out): with the backoff timer
still pending after `addRemoteVideoTrack`, both teardown paths leave it
pending. -/
theorem teardown_leaves_backoff_timer_pending :
    (removeRemoteVideoTrack (JsVal.num 3)
      (addRemoteVideoTrack
        (Env.mk (Snapshot.snap JsVal.null JsVal.null) (JsVal.str "u-42")
          (JsVal.num 3) true "a1")
        initState)).map (fun s => s.backoffPending) = Except.ok true ∧
    (removeObserver
      (addRemoteVideoTrack
        (Env.mk (Snapshot.snap JsVal.null JsVal.null) (JsVal.str "u-42")
          (JsVal.num 3) true "a1")
        initState)).backoffPending = true := by
  constructor <;> rfl

/-- Claim C5 (counterexample): external teardown (`removeObserver`) does
not cancel the presence timeout. For a track that reached
`bindExternalIdToRemoteTile` (complete snapshot, external user id still
null), teardown unsubscribes the handler once but leaves the timeout
pending, and when that timeout later fires, the unsubscribe path runs a
second time: two unsubscribe calls for one subscription, contradicting
the claimed exactly-once invariant. -/
theorem teardown_then_timeout_unsubscribes_twice :
    (exec
      (Env.mk (Snapshot.snap (JsVal.num 1280) (JsVal.num 720)) JsVal.null
        (JsVal.num 3) true "a1")
      [Ev.addTrack, Ev.fireBackoff, Ev.teardown] initState).map
      (fun s => (s.unsubscribeCalls, s.presenceTimeoutPending)) =
      Except.ok (1, true) ∧
    (exec
      (Env.mk (Snapshot.snap (JsVal.num 1280) (JsVal.num 720)) JsVal.null
        (JsVal.num 3) true "a1")
      [Ev.addTrack, Ev.fireBackoff, Ev.teardown, Ev.fireTimeout]
      initState).map (fun s => s.unsubscribeCalls) = Except.ok 2 := by
  constructor <;> rfl

/-- The boolean match condition of the presence handler holds exactly when
the event matches the claimed predicate. -/
theorem presence_match_iff (ctx : PresenceCtx) (ev : PresenceEvent) :
    ((ctx.attendeeId == ev.attendeeId) && ev.present
      && !(jsStrictEq ev.externalUserId JsVal.null)) = true
    ↔ (ev.attendeeId = ctx.attendeeId ∧ ev.present = true
        ∧ ev.externalUserId ≠ JsVal.null) := by
  simp only [Bool.and_eq_true, Bool.not_eq_true', beq_iff_eq]
  constructor
  · rintro ⟨⟨h1, h2⟩, h3⟩
    refine ⟨h1.symm, h2, ?_⟩
    intro hn
    rw [((jsStrictEq_iff _ _).mpr hn : jsStrictEq ev.externalUserId JsVal.null = true)] at h3
    exact Bool.noConfusion h3
  · rintro ⟨h1, h2, h3⟩
    refine ⟨⟨h1.symm, h2⟩, ?_⟩
    cases hb : jsStrictEq ev.externalUserId JsVal.null
    · rfl
    · exact absurd ((jsStrictEq_iff _ _).mp hb) h3

/-- Claim C6: the presence handler binds the tile exactly for events with
the owning attendee id, `present` true, and a strictly non-null external
user id; on such a match it binds with the event's external user id and,
in the same invocation, unsubscribes the handler, deletes it from the
handler set, and stops the timeout; on any other event it changes
nothing. -/
theorem presenceHandler_binds_iff_matching
    (ctx : PresenceCtx) (ev : PresenceEvent) (s : CoordState) :
    presenceHandler ctx ev s =
      if ev.attendeeId = ctx.attendeeId ∧ ev.present = true
          ∧ ev.externalUserId ≠ JsVal.null then
        { s with
            binds := BindCall.mk ctx.attendeeId ctx.width ctx.height
              ctx.streamId ev.externalUserId :: s.binds,
            unsubscribeCalls := s.unsubscribeCalls + 1,
            presenceSubscribed := false,
            handlerInSet := false,
            presenceTimeoutPending := false } else s := by
  unfold presenceHandler tileBindVideoStream
  split
  · next hg => rw [if_pos ((presence_match_iff ctx ev).mp hg)]
  · next hg =>
    rw [if_neg (fun hp => hg ((presence_match_iff ctx ev).mpr hp))]

/-- Claim C5 (amended): for every live presence subscription (handler
subscribed, in the handler set, timeout pending), whichever of a
matching presence event or the timeout fires first executes the
unsubscribe path exactly once, and the loser is disabled: after a match
the timeout is stopped and firing it changes nothing; after a timeout the
handler is unsubscribed and a later matching event neither binds nor
unsubscribes again. External teardown (`removeObserver`) also
unsubscribes exactly once — but it does not cancel the pending timeout,
so a teardown followed by the timeout firing executes the unsubscribe
path a second time. -/
theorem presence_unsubscribe_once_absent_teardown
    (env : Env) (ctx : PresenceCtx) (ev : PresenceEvent) (s : CoordState)
    (hsub : s.presenceSubscribed = true) (hset : s.handlerInSet = true)
    (hpend : s.presenceTimeoutPending = true)
    (hctx : s.presenceCtx = some ctx)
    (hm1 : ev.attendeeId = ctx.attendeeId) (hm2 : ev.present = true)
    (hm3 : ev.externalUserId ≠ JsVal.null) :
    ((step env (Ev.presence ev) s).map
      (fun t => (t.unsubscribeCalls, t.handlerInSet, t.presenceTimeoutPending))
      = Except.ok (s.unsubscribeCalls + 1, false, false)) ∧
    (((step env (Ev.presence ev) s).bind (step env Ev.fireTimeout)).map
      (fun t => t.unsubscribeCalls) = Except.ok (s.unsubscribeCalls + 1)) ∧
    ((step env Ev.fireTimeout s).map
      (fun t => (t.unsubscribeCalls, t.presenceSubscribed, t.handlerInSet))
      = Except.ok (s.unsubscribeCalls + 1, false, false)) ∧
    (((step env Ev.fireTimeout s).bind (step env (Ev.presence ev))).map
      (fun t => (t.unsubscribeCalls, t.binds))
      = Except.ok (s.unsubscribeCalls + 1, s.binds)) ∧
    ((step env Ev.teardown s).map
      (fun t => (t.unsubscribeCalls, t.presenceTimeoutPending))
      = Except.ok (s.unsubscribeCalls + 1, true)) ∧
    (((step env Ev.teardown s).bind (step env Ev.fireTimeout)).map
      (fun t => t.unsubscribeCalls) = Except.ok (s.unsubscribeCalls + 2)) := by
  have hmatch : ((ctx.attendeeId == ev.attendeeId) && ev.present
      && !(jsStrictEq ev.externalUserId JsVal.null)) = true :=
    (presence_match_iff ctx ev).mpr ⟨hm1, hm2, hm3⟩
  refine ⟨?_, ?_, ?_, ?_, ?_, ?_⟩
  · simp [step, presenceHandler, tileBindVideoStream, hsub, hctx, hmatch,
      except_map_ok]
  · simp [step, presenceHandler, presenceTimeoutCallback, tileBindVideoStream,
      hsub, hctx, hmatch, except_ok_bind, except_map_ok, Except.bind]
  · simp [step, presenceTimeoutCallback, hpend, except_map_ok]
  · simp [step, presenceHandler, presenceTimeoutCallback, hpend,
      except_ok_bind, except_map_ok, Except.bind]
  · cases h1 : s.trackAddedRegistered <;>
      cases h2 : s.trackRemovedListenerRegistered <;>
        simp [step, removeObserver, hset, hpend, h1, h2, except_map_ok]
  · cases h1 : s.trackAddedRegistered <;>
      cases h2 : s.trackRemovedListenerRegistered <;>
        simp [step, removeObserver, presenceTimeoutCallback, hset, hpend,
          h1, h2, except_ok_bind, except_map_ok, Except.bind]

/-- Witness for the amended C5 theorem: a concrete live subscription for
attendee "a1" and a concrete matching presence event. -/
theorem presence_unsubscribe_once_absent_teardown_witness :
    (let s : CoordState :=
      { initState with
          presenceSubscribed := true, handlerInSet := true,
          presenceTimeoutPending := true,
          presenceCtx := some (PresenceCtx.mk "a1" (JsVal.num 1280)
            (JsVal.num 720) (JsVal.num 3)) }
    let env : Env := Env.mk (Snapshot.snap (JsVal.num 1280) (JsVal.num 720))
      JsVal.null (JsVal.num 3) true "a1"
    let ev : PresenceEvent := PresenceEvent.mk "a1" true (JsVal.str "ext-7")
    s.presenceSubscribed = true ∧ s.handlerInSet = true ∧
    s.presenceTimeoutPending = true ∧
    s.presenceCtx = some (PresenceCtx.mk "a1" (JsVal.num 1280)
      (JsVal.num 720) (JsVal.num 3)) ∧
    ev.attendeeId = "a1" ∧ ev.present = true ∧
    ev.externalUserId ≠ JsVal.null ∧
    ((step env (Ev.presence ev) s).map
      (fun t => (t.unsubscribeCalls, t.handlerInSet, t.presenceTimeoutPending))
      = Except.ok (1, false, false)) ∧
    (((step env (Ev.teardown) s).bind (step env Ev.fireTimeout)).map
      (fun t => t.unsubscribeCalls) = Except.ok 2)) := by
  refine ⟨rfl, rfl, rfl, rfl, rfl, rfl, by decide, ?_, ?_⟩
  · exact (presence_unsubscribe_once_absent_teardown _
      (PresenceCtx.mk "a1" (JsVal.num 1280) (JsVal.num 720) (JsVal.num 3))
      (PresenceEvent.mk "a1" true (JsVal.str "ext-7")) _
      rfl rfl rfl rfl rfl rfl (by decide)).1
  · exact (presence_unsubscribe_once_absent_teardown
      (Env.mk (Snapshot.snap (JsVal.num 1280) (JsVal.num 720))
        JsVal.null (JsVal.num 3) true "a1")
      (PresenceCtx.mk "a1" (JsVal.num 1280) (JsVal.num 720) (JsVal.num 3))
      (PresenceEvent.mk "a1" true (JsVal.str "ext-7")) _
      rfl rfl rfl rfl rfl rfl (by decide)).2.2.2.2.2

/-- Claim C7 (counterexample): calling the release path twice for the
same track is claimed to be a no-op; but the first
`removeRemoteVideoTrack` deletes the track's entries, so a second direct
call invokes the now-absent
`removeTrackRemovedEventListeners[track.id]` — calling `undefined` — and
raises a `TypeError` instead of doing nothing. -/
theorem second_release_call_raises_typeerror :
    ((removeRemoteVideoTrack (JsVal.num 3)
        (addRemoteVideoTrack
          (Env.mk (Snapshot.snap (JsVal.num 1280) (JsVal.num 720))
            (JsVal.str "u-42") (JsVal.num 3) true "a1")
          initState)).bind (removeRemoteVideoTrack (JsVal.num 3)))
      = Except.error JsError.typeError := rfl

/-- Claim C7 (amended): the registered removal trigger fires its teardown
path at most once — the first run removes the trigger's listener and the
registry entries as it releases them, so a second end/removed signal is a
no-op (`teardownRuns` stays 1) — but a direct second call of the release
path for the same track raises a `TypeError` rather than being a no-op. -/
theorem removal_trigger_at_most_once
    (env : Env) (sid : JsVal) (hv : env.hasVideoSubTracks = true) :
    ((exec env [Ev.addTrack, Ev.trackRemoved sid, Ev.trackRemoved sid]
        initState).map
      (fun s => (s.teardownRuns, s.trackRemovedListenerRegistered,
        s.videoTrackListeners, s.tilePresent))
      = Except.ok (1, false, none, false)) ∧
    ((exec env [Ev.addTrack, Ev.trackRemoved sid] initState).bind
      (removeRemoteVideoTrack sid) = Except.error JsError.typeError) := by
  obtain ⟨ts, eu, sif, hvf, aid⟩ := env
  dsimp only at hv
  subst hv
  cases ht : jsTruthy sid <;>
    simp [exec, step, addRemoteVideoTrack, bindTile, retryWithBackoff,
      removeRemoteVideoTrack, trackEvents, initState, ht, except_ok_bind,
      except_error_bind, except_map_ok, except_map_pure, Except.bind,
      apply_ite]

/-- Witness for the amended C7 theorem at a concrete track whose stream
has video sub-tracks. -/
theorem removal_trigger_at_most_once_witness :
    (Env.mk (Snapshot.snap (JsVal.num 1280) (JsVal.num 720))
      (JsVal.str "u-42") (JsVal.num 3) true "a1").hasVideoSubTracks
      = true ∧
    (((exec
        (Env.mk (Snapshot.snap (JsVal.num 1280) (JsVal.num 720))
          (JsVal.str "u-42") (JsVal.num 3) true "a1")
        [Ev.addTrack, Ev.trackRemoved (JsVal.num 3),
          Ev.trackRemoved (JsVal.num 3)] initState).map
      (fun s => (s.teardownRuns, s.trackRemovedListenerRegistered,
        s.videoTrackListeners, s.tilePresent))
      = Except.ok (1, false, none, false)) ∧
    ((exec
        (Env.mk (Snapshot.snap (JsVal.num 1280) (JsVal.num 720))
          (JsVal.str "u-42") (JsVal.num 3) true "a1")
        [Ev.addTrack, Ev.trackRemoved (JsVal.num 3)] initState).bind
      (removeRemoteVideoTrack (JsVal.num 3))
      = Except.error JsError.typeError)) :=
  ⟨rfl, removal_trigger_at_most_once
    (Env.mk (Snapshot.snap (JsVal.num 1280) (JsVal.num 720))
      (JsVal.str "u-42") (JsVal.num 3) true "a1")
    (JsVal.num 3) rfl⟩

/-- Claim C8: for a remote video track whose stream has no video
sub-tracks, the auxiliary diagnostic listeners are indeed skipped (the
per-track listener list is never created) — but then the claimed
non-fatal removal fails: `removeRemoteVideoTrack` iterates the absent
`removeVideoTrackEventListeners[track.id]` with `for..of` and raises a
`TypeError`, before ever reaching `removeVideoTile`. -/
theorem no_video_subtracks_removal_raises_typeerror :
    (addRemoteVideoTrack
      (Env.mk (Snapshot.snap (JsVal.num 1280) (JsVal.num 720))
        (JsVal.str "u-42") (JsVal.num 3) false "a1")
      initState).videoTrackListeners = none ∧
    removeRemoteVideoTrack (JsVal.num 3)
      (addRemoteVideoTrack
        (Env.mk (Snapshot.snap (JsVal.num 1280) (JsVal.num 720))
          (JsVal.str "u-42") (JsVal.num 3) false "a1")
        initState) = Except.error JsError.typeError := ⟨rfl, rfl⟩

/-- Claim C9 (counterexample): the claim says a known streamId —
including 0 — is passed to the paused-stream tracker. The source guard is
`if (tileState.streamId)`, JavaScript truthiness: at `streamId = 0` the
tracker is not notified and a warning is logged instead (the tile is
still removed). -/
theorem stream_id_zero_not_notified :
    (removeRemoteVideoTrack (JsVal.num 0)
      (addRemoteVideoTrack
        (Env.mk (Snapshot.snap (JsVal.num 1280) (JsVal.num 720))
          (JsVal.str "u-42") (JsVal.num 3) true "a1")
        initState)).map
      (fun s => (s.pausedRemoved, s.warnings, s.tilePresent))
      = Except.ok ([], 1, false) := rfl

/-- Claim C9 (amended): for every invocation of `removeRemoteVideoTrack`
on a track whose registry entries are present, if `tileState.streamId` is
truthy (non-null, non-undefined and non-zero) the paused-stream tracker
is notified to drop it, otherwise — including for `streamId = 0` — a
warning is logged instead; in both cases the tile is removed from the
tile registry. -/
theorem removeRemoteVideoTrack_truthy_stream_id
    (sid : JsVal) (s : CoordState) (n : Nat)
    (hreg : s.trackRemovedListenerRegistered = true)
    (hls : s.videoTrackListeners = some n) :
    (removeRemoteVideoTrack sid s).map
      (fun t => (t.tilePresent, t.pausedRemoved, t.warnings))
      = (if jsTruthy sid then
          Except.ok (false, sid :: s.pausedRemoved, s.warnings)
        else
          Except.ok (false, s.pausedRemoved, s.warnings + 1)) := by
  cases ht : jsTruthy sid <;>
    simp [removeRemoteVideoTrack, hreg, hls, ht, except_ok_bind,
      except_error_bind, except_map_ok, except_map_pure, Except.bind]

/-- Witness for the amended C9 theorem: a registered track released with
the truthy streamId 7. -/
theorem removeRemoteVideoTrack_truthy_stream_id_witness :
    ({ initState with
        trackRemovedListenerRegistered := true,
        videoTrackListeners := some 5 } :
        CoordState).trackRemovedListenerRegistered = true ∧
    ({ initState with
        trackRemovedListenerRegistered := true,
        videoTrackListeners := some 5 } :
        CoordState).videoTrackListeners = some 5 ∧
    (removeRemoteVideoTrack (JsVal.num 7)
      { initState with
          trackRemovedListenerRegistered := true,
          videoTrackListeners := some 5 }).map
      (fun t => (t.tilePresent, t.pausedRemoved, t.warnings))
      = Except.ok (false, [JsVal.num 7], 0) :=
  ⟨rfl, rfl, removeRemoteVideoTrack_truthy_stream_id (JsVal.num 7)
    { initState with
        trackRemovedListenerRegistered := true,
        videoTrackListeners := some 5 } 5 rfl rfl⟩
